import Mathlib

/-!
# `backend/server.js`: startup sequence, middleware stack and shutdown

The file under study is the composition root of an Express application.  It has
no algorithm of its own: what it fixes is *which calls are made, with which
arguments, in which order*.  The embedding therefore represents

* the process-level behaviour (reading the environment, the mandatory
  parameter check, the database connection, the server assembly, the `SIGINT`
  handler) as the list of observable calls it performs, in program order;
* the request path as the walk of a request through the registered layers.

Everything that lives in a package or module outside `server.js` (Express
itself, the middleware factories, passport and its strategy, the route modules,
the `ngrok`, `sentry` and `config` modules) is kept abstract: it is either an
uninterpreted call in the trace or a field of `Deps`.
-/

namespace Server

/-! ## JavaScript values read from the environment -/

/-- The process environment as lines 32-46 read it, that is `process.env` once
`dotenv` has been loaded; `none` stands for `undefined`. -/
abbrev Env := String → Option String

/-- JavaScript negation `!x` of a value that is `undefined` or a string: only
`undefined` and the empty string are falsy. -/
def jsNot : Option String → Bool
  | none => true
  | some s => s == ""

/-- String conversion used by `+` and by template literals. -/
def jsString : Option String → String
  | none => "undefined"
  | some s => s

/-- The constants of lines 32-46, each holding one environment lookup. -/
structure Config where
  SERVER_HOST : Option String
  SERVER_PORT : Option String
  SERVER_URL : Option String
  MONGO_URL : Option String
  MONGO_DATABASE : Option String
  SESSION_SECRET : Option String
  KEYCLOAK_ISSUER : Option String
  KEYCLOAK_AUTHORIZATION_URL : Option String
  KEYCLOAK_TOKEN_URL : Option String
  KEYCLOAK_USERINFO_URL : Option String
  KEYCLOAK_CLIENT_ID : Option String
  KEYCLOAK_CLIENT_SECRET : Option String
  KEYCLOAK_CALLBACK_URL : Option String
  deriving DecidableEq, Repr

/-- Lines 32-46: load the configuration from the environment. -/
def loadConfig (env : Env) : Config where
  SERVER_HOST := env "SERVER_HOST"
  SERVER_PORT := env "SERVER_PORT"
  SERVER_URL := env "SERVER_URL"
  MONGO_URL := env "MONGO_URL"
  MONGO_DATABASE := env "MONGO_DATABASE"
  SESSION_SECRET := env "SESSION_SECRET"
  KEYCLOAK_ISSUER := env "KEYCLOAK_ISSUER"
  KEYCLOAK_AUTHORIZATION_URL := env "KEYCLOAK_AUTHORIZATION_URL"
  KEYCLOAK_TOKEN_URL := env "KEYCLOAK_TOKEN_URL"
  KEYCLOAK_USERINFO_URL := env "KEYCLOAK_USERINFO_URL"
  KEYCLOAK_CLIENT_ID := env "KEYCLOAK_CLIENT_ID"
  KEYCLOAK_CLIENT_SECRET := env "KEYCLOAK_CLIENT_SECRET"
  KEYCLOAK_CALLBACK_URL := env "KEYCLOAK_CALLBACK_URL"

/-- The condition of the `if` at lines 49-56 ("Check mandatory params"). -/
def invalidConfig (c : Config) : Bool :=
  jsNot c.SERVER_HOST || jsNot c.SERVER_PORT || jsNot c.SERVER_URL ||
  jsNot c.MONGO_URL || jsNot c.MONGO_DATABASE ||
  jsNot c.SESSION_SECRET || jsNot c.KEYCLOAK_ISSUER ||
  jsNot c.KEYCLOAK_AUTHORIZATION_URL || jsNot c.KEYCLOAK_TOKEN_URL ||
  jsNot c.KEYCLOAK_USERINFO_URL || jsNot c.KEYCLOAK_CLIENT_ID ||
  jsNot c.KEYCLOAK_CLIENT_SECRET || jsNot c.KEYCLOAK_CALLBACK_URL

/-- The thirteen variable names the specification calls mandatory. -/
def mandatoryVars : List String :=
  ["SERVER_HOST", "SERVER_PORT", "SERVER_URL", "MONGO_URL", "MONGO_DATABASE",
   "SESSION_SECRET", "KEYCLOAK_ISSUER", "KEYCLOAK_AUTHORIZATION_URL",
   "KEYCLOAK_TOKEN_URL", "KEYCLOAK_USERINFO_URL", "KEYCLOAK_CLIENT_ID",
   "KEYCLOAK_CLIENT_SECRET", "KEYCLOAK_CALLBACK_URL"]

/-- Line 27. -/
def apiPath : String := "/api/v1"

/-- Line 61. -/
def home (c : Config) : Option String := c.SERVER_URL

/-- Line 62: `home + apiPath + '/docs'`. -/
def apiDocs (c : Config) : String := jsString (home c) ++ apiPath ++ "/docs"

/-! ## Handlers and process-level calls -/

/-- The functions handed to `app.use` and `app.get` in lines 76-155.  The options
given to the middleware factories of other packages (`cors`, `express.static`,
`express.urlencoded`, `session`) configure code that is not in this file and are
not recorded; the arguments of `passport.authenticate` are. -/
inductive HandlerName
  | cors
  | compression
  | static
  | urlencoded
  | json
  | session
  | passportInitialize
  | passportSession
  | requestLogger
  | api
  | room
  | sms
  | token
  | users
  | authenticate (strategy : String) (failureRedirect : String)
  | loginPage
  | clientPage
  | sendConfig
  | logout
  | notFound
  deriving DecidableEq, Repr

/-- The options object given to the OpenID Connect strategy, lines 94-103. -/
structure StrategyOptions where
  issuer : Option String
  authorizationURL : Option String
  tokenURL : Option String
  userInfoURL : Option String
  clientID : Option String
  clientSecret : Option String
  callbackURL : Option String
  scope : String
  deriving DecidableEq, Repr

/-- One observable call made by the process.  Calls into other modules are
uninterpreted; their arguments are recorded as the source passes them. -/
inductive Effect
  | dotenvConfig
  | sentryStart
  | logError (message : String) (detail : Option String)
  | logDebug (message : String)
  | logInfo (message : String) (home : Option String) (apiDocs : String)
  | exit (code : Nat)
  | mongooseSet (key : String) (value : Bool)
  | mongooseConnect (url : Option String) (dbName : Option String)
  | connectionOn (event : String)
  | processOn (signal : String)
  | express
  | appUse (path : Option String) (handler : HandlerName)
  | appGet (path : String) (handlers : List HandlerName)
  | passportUse (name : Option String) (options : StrategyOptions)
  | passportSerializeUser
  | passportDeserializeUser
  | listen (port : Option String) (host : Option String)
  | ngrokStart
  | connectionClose
  deriving DecidableEq, Repr

/-- State of a promise when the event loop looks at it. -/
inductive Settled
  | fulfilled
  | rejected (reason : String)
  | pending
  deriving DecidableEq, Repr

/-- The chain `p.then(onFulfilled).catch(onRejected)`: nothing runs while `p` is
pending. -/
def thenCatch (p : Settled) (onFulfilled : List Effect)
    (onRejected : String → List Effect) : List Effect :=
  match p with
  | .fulfilled => onFulfilled
  | .rejected reason => onRejected reason
  | .pending => []

/-- The call `process.exit` does not return: nothing written after it is executed. -/
def runUntilExit : List Effect → List Effect
  | [] => []
  | .exit code :: _ => [.exit code]
  | e :: rest => e :: runUntilExit rest

/-- Callback of `app.listen`, lines 158-170. -/
def onListening (ngrokEnabled : Bool) (c : Config) : List Effect :=
  if ngrokEnabled then [.ngrokStart]
  else [.logInfo "Server" (home c) (apiDocs c)]

/-- Callback of `mongoose.connect(...).then`, lines 72-171, statement by
statement, followed by the callback of `listen`, which runs once the socket is
listening. -/
def onConnected (ngrokEnabled : Bool) (c : Config) : List Effect :=
  [ .express,
    .appUse none .cors,
    .appUse none .compression,
    .appUse none .static,
    .appUse none .urlencoded,
    .appUse none .json,
    .appUse none .session,
    .passportUse none
      { issuer := c.KEYCLOAK_ISSUER
        authorizationURL := c.KEYCLOAK_AUTHORIZATION_URL
        tokenURL := c.KEYCLOAK_TOKEN_URL
        userInfoURL := c.KEYCLOAK_USERINFO_URL
        clientID := c.KEYCLOAK_CLIENT_ID
        clientSecret := c.KEYCLOAK_CLIENT_SECRET
        callbackURL := c.KEYCLOAK_CALLBACK_URL
        scope := "openid profile email" },
    .passportSerializeUser,
    .passportDeserializeUser,
    .appUse none .passportInitialize,
    .appUse none .passportSession,
    .appUse none .requestLogger,
    .appUse (some apiPath) .api,
    .appUse (some apiPath) .room,
    .appUse (some apiPath) .sms,
    .appUse (some apiPath) .token,
    .appUse (some apiPath) .users,
    .appGet "/" [.loginPage],
    .appGet "/client" [.authenticate "oidc" "/", .clientPage],
    .appGet "/config" [.authenticate "oidc" "/", .sendConfig],
    .appGet "/logout" [.logout],
    .appUse (some "*") .notFound,
    .listen c.SERVER_PORT none ] ++
  onListening ngrokEnabled c

/-- The module body, top to bottom: the synchronous statements first, then the
reaction to the connection promise.  `ngrokEnabled` is the answer of
`ngrok.enabled()`, `db` the fate of the connection attempt. -/
def startup (ngrokEnabled : Bool) (env : Env) (db : Settled) : List Effect :=
  let c := loadConfig env
  runUntilExit (
    [.dotenvConfig, .sentryStart] ++
    (if invalidConfig c then
      [.logError "Invalid or missing .env file" none, .exit 1]
     else []) ++
    [ .mongooseSet "strictQuery" true,
      .mongooseConnect c.MONGO_URL c.MONGO_DATABASE,
      .connectionOn "connected",
      .connectionOn "error",
      .connectionOn "disconnected",
      .processOn "SIGINT" ] ++
    thenCatch db (onConnected ngrokEnabled c)
      (fun err => [.logError ("Mongoose init connection error: " ++ err) none]))

/-- The `SIGINT` listener, lines 186-197; `close` is the fate of
`mongoose.connection.close()`. -/
def onSigint (close : Settled) : List Effect :=
  runUntilExit (
    [.connectionClose] ++
    thenCatch close
      [.logDebug "Mongoose connection disconnected through app termination", .exit 0]
      (fun error => [.logError "Error closing MongoDB connection:" (some error), .exit 0]))

/-! ## The three passport callbacks (lines 104-111) -/

/-- The verify callback of the strategy, lines 104-106: `done(null, profile)`. -/
def verify {α β : Type} (_issuer _sub : String) (profile : α)
    (_accessToken _refreshToken : String) (done : Option String → α → β) : β :=
  done none profile

/-- Line 110: `(user, done) => done(null, user)`. -/
def serializeUser {α β : Type} (user : α) (done : Option String → α → β) : β :=
  done none user

/-- Line 111: `(obj, done) => done(null, obj)`. -/
def deserializeUser {α β : Type} (obj : α) (done : Option String → α → β) : β :=
  done none obj

/-! ## Requests, responses and the layer stack -/

/-- The request object as the handlers see it.  `payload` is the entity as it
arrived, `body` is `req.body` (`undefined` until a body parser sets it) and
`user` is `req.user`, the principal of an authenticated session. -/
structure Request where
  method : String
  originalUrl : String
  headers : List (String × String)
  payload : String
  body : Option String
  user : Option String
  deriving DecidableEq, Repr

/-- What a response carries. -/
inductive Body
  | empty
  | file (pathJoin : List String)
  | object (fields : List (String × String))
  | configModule
  | other (text : String)
  deriving DecidableEq, Repr

/-- An HTTP response: status, `Location` header, content. -/
structure Response where
  status : Nat
  location : Option String
  body : Body
  deriving DecidableEq, Repr

/-- The call `res.redirect(target)`: status 302 and a `Location` header. -/
def Response.redirect (target : String) : Response := ⟨302, some target, .empty⟩

/-- The call `res.sendFile(file)`. -/
def Response.sendFile (pathJoin : List String) : Response := ⟨200, none, .file pathJoin⟩

/-- The call `res.status(status).json(body)`. -/
def Response.json (status : Nat) (body : Body) : Response := ⟨status, none, body⟩

/-- Line 64, as the arguments of `path.join`. -/
def frontendDir : List String := ["__dirname", "../", "frontend"]

/-- Line 65, as the arguments of `path.join`. -/
def login : List String := ["__dirname", "../", "frontend/html/home.html"]

/-- Line 66, as the arguments of `path.join`. -/
def client : List String := ["__dirname", "../", "frontend/html/client.html"]

/-- Second argument of a `log.debug` call made while a request is served. -/
inductive LogData
  | request (headers : List (String × String)) (body : Option String)
      (method : String) (path : String)
  | configModule
  deriving DecidableEq, Repr

/-- What can be observed while one request is served, in order of occurrence. -/
inductive Event
  | logDebug (message : String) (data : LogData)
  | reqLogout
  | respond (res : Response)
  | finalHandler
  deriving DecidableEq, Repr

/-- How a middleware function leaves a request: it calls `next()`, possibly
after changing the request object, or the request is over once it is done
(it answered, or it called `next(err)`, which with no error-handling layer
registered goes straight to the default error response). -/
inductive Outcome
  | next (req : Request)
  | ended (res : Response)
  deriving DecidableEq, Repr

/-- The actions a passport strategy can take on a request. -/
inductive StrategyAction
  | success (user : String)
  | fail
  | redirect (url : String)
  | pass
  | error
  deriving DecidableEq, Repr

/-- Code outside `server.js` on which the request path depends.  Each middleware
of a package and each route module is an arbitrary function of the request;
`strategyName` is the name the strategy object built at line 93 carries, under
which `passport.use` stores it when it is given no name, and `strategy` is what
that strategy does with a request; `mountMatches` and `routeMatches` are the
path and method matching of Express for `app.use(path, _)` and
`app.METHOD(path, _)`. -/
structure Deps where
  cors : Request → Outcome
  compression : Request → Outcome
  static : Request → Outcome
  urlencoded : Request → Outcome
  json : Request → Outcome
  session : Request → Outcome
  passportInitialize : Request → Outcome
  passportSession : Request → Outcome
  api : Request → Outcome
  room : Request → Outcome
  sms : Request → Outcome
  token : Request → Outcome
  users : Request → Outcome
  strategyName : String
  strategy : Request → StrategyAction
  mountMatches : String → Request → Bool
  routeMatches : String → String → Request → Bool

/-- The names under which a sequence of calls registers strategies:
`passport.use(name, strategy)` registers under `name`, `passport.use(strategy)`
under the name the strategy object carries. -/
def registeredStrategies (defaultName : String) (calls : List Effect) : List String :=
  calls.filterMap fun
    | .passportUse name _ => some (name.getD defaultName)
    | _ => none

/-- The answer to a request whose authentication names a strategy that was never
registered: the middleware calls `next` with an error, which, no error-handling
layer being registered, becomes the default error response. -/
def unknownStrategy (strategy : String) : Response :=
  ⟨500, none, .other ("Unknown authentication strategy " ++ strategy)⟩

/-- The middleware `passport.authenticate(strategy, { failureRedirect })`: it
looks the strategy up by name among the registered ones, runs it on every
request it receives and turns the strategy's action into the response or into
`next()`.  The session is not consulted. -/
def authenticate (D : Deps) (c : Config) (strategy failureRedirect : String)
    (req : Request) : Outcome :=
  if (registeredStrategies D.strategyName (onConnected false c)).contains strategy then
    match D.strategy req with
    | .success user => .next { req with user := some user }
    | .fail => .ended (Response.redirect failureRedirect)
    | .redirect url => .ended (Response.redirect url)
    | .pass => .next req
    | .error => .ended ⟨500, none, .empty⟩
  else .ended (unknownStrategy strategy)

/-- One step of request processing: the events it causes and how it leaves the request. -/
abbrev Step := Request → List Event × Outcome

/-- The function behind each handler name; those written in `server.js` itself
(lines 117-125 and 134-155) are spelled out. -/
def handler (D : Deps) (c : Config) : HandlerName → Step
  | .cors, req => ([], D.cors req)
  | .compression, req => ([], D.compression req)
  | .static, req => ([], D.static req)
  | .urlencoded, req => ([], D.urlencoded req)
  | .json, req => ([], D.json req)
  | .session, req => ([], D.session req)
  | .passportInitialize, req => ([], D.passportInitialize req)
  | .passportSession, req => ([], D.passportSession req)
  | .requestLogger, req =>
    ([.logDebug "New request:" (.request req.headers req.body req.method req.originalUrl)],
     .next req)
  | .api, req => ([], D.api req)
  | .room, req => ([], D.room req)
  | .sms, req => ([], D.sms req)
  | .token, req => ([], D.token req)
  | .users, req => ([], D.users req)
  | .authenticate strategy failureRedirect, req =>
    ([], authenticate D c strategy failureRedirect req)
  | .loginPage, _ => ([], .ended (Response.sendFile login))
  | .clientPage, _ => ([], .ended (Response.sendFile client))
  | .sendConfig, _ =>
    ([.logDebug "Send config" .configModule], .ended (Response.json 200 .configModule))
  | .logout, _ =>
    ([.reqLogout],
     .ended (Response.redirect
       (jsString c.KEYCLOAK_ISSUER ++ "/protocol/openid-connect/logout")))
  | .notFound, _ =>
    ([], .ended (Response.json 404 (.object [("message", "Page not found")])))

/-- Run steps one after the other: a step that calls `next()` hands the request
to the following step, a step that ends the request stops the run. -/
def chain : List Step → Step
  | [], req => ([], .next req)
  | s :: rest, req =>
    match s req with
    | (events, .next req') => (events ++ (chain rest req').1, (chain rest req').2)
    | (events, .ended res) => (events, .ended res)

/-- When a layer applies to a request. -/
inductive Matcher
  | all
  | mount (path : String)
  | route (method : String) (path : String)
  deriving DecidableEq, Repr

/-- An entry of the application's stack. -/
structure Layer where
  matcher : Matcher
  handlers : List HandlerName
  deriving DecidableEq, Repr

/-- The layer a registration call pushes on the stack. -/
def layerOf : Effect → Option Layer
  | .appUse none h => some ⟨.all, [h]⟩
  | .appUse (some path) h => some ⟨.mount path, [h]⟩
  | .appGet path hs => some ⟨.route "GET" path, hs⟩
  | _ => none

/-- The stack left by a sequence of calls: registration order is call order. -/
def stack (calls : List Effect) : List Layer := calls.filterMap layerOf

/-- The stack of the running application. -/
def app (c : Config) : List Layer := stack (onConnected false c)

/-- Whether a layer applies; the mount path `*` is the wildcard. -/
def Layer.applies (D : Deps) (l : Layer) (req : Request) : Bool :=
  match l.matcher with
  | .all => true
  | .mount path => path == "*" || D.mountMatches path req
  | .route method path => D.routeMatches method path req

/-- A layer as a step: skipped when it does not apply. -/
def runLayer (D : Deps) (c : Config) (l : Layer) : Step := fun req =>
  if l.applies D req then chain (l.handlers.map (handler D c)) req
  else ([], .next req)

/-- Walk a request through a list of layers. -/
def runLayers (D : Deps) (c : Config) (layers : List Layer) : Step :=
  chain (layers.map (runLayer D c))

/-- Serve one request: the events, closed by the response. -/
def handle (D : Deps) (c : Config) (req : Request) : List Event :=
  match runLayers D c (app c) req with
  | (events, .ended res) => events ++ [.respond res]
  | (events, .next _) => events ++ [.finalHandler]

/-- Whether an event is an entry of the request logger. -/
def isRequestLog : Event → Bool
  | .logDebug "New request:" (.request _ _ _ _) => true
  | _ => false

/-- Number of request-logger entries among the events. -/
def requestLogs (events : List Event) : Nat := events.countP isRequestLog

/-- An environment given by a table of assignments. -/
def envOf (table : List (String × String)) : Env := fun name => table.lookup name

/-- A complete environment. -/
def sampleEnv : Env :=
  envOf
    [("SERVER_HOST", "127.0.0.1"), ("SERVER_PORT", "9000"),
     ("SERVER_URL", "http://localhost:9000"), ("MONGO_URL", "mongodb://db:27017"),
     ("MONGO_DATABASE", "mirotalk"), ("SESSION_SECRET", "s3cret"),
     ("KEYCLOAK_ISSUER", "https://sso.example/realms/r"),
     ("KEYCLOAK_AUTHORIZATION_URL", "https://sso.example/realms/r/protocol/openid-connect/auth"),
     ("KEYCLOAK_TOKEN_URL", "https://sso.example/realms/r/protocol/openid-connect/token"),
     ("KEYCLOAK_USERINFO_URL", "https://sso.example/realms/r/protocol/openid-connect/userinfo"),
     ("KEYCLOAK_CLIENT_ID", "mirotalk"), ("KEYCLOAK_CLIENT_SECRET", "abc"),
     ("KEYCLOAK_CALLBACK_URL", "http://localhost:9000/client")]

/-- The registration order as the specification lists it: CORS policy,
compression, static assets, body parsing (urlencoded, then JSON), session,
authentication (passport initialize, then passport session), request logging,
the five routers under `/api/v1` (api, room, sms, token, users), the four GET
routes, the catch-all 404. -/
def specOrder : List Layer :=
  [ ⟨.all, [.cors]⟩, ⟨.all, [.compression]⟩, ⟨.all, [.static]⟩,
    ⟨.all, [.urlencoded]⟩, ⟨.all, [.json]⟩, ⟨.all, [.session]⟩,
    ⟨.all, [.passportInitialize]⟩, ⟨.all, [.passportSession]⟩,
    ⟨.all, [.requestLogger]⟩,
    ⟨.mount "/api/v1", [.api]⟩, ⟨.mount "/api/v1", [.room]⟩, ⟨.mount "/api/v1", [.sms]⟩,
    ⟨.mount "/api/v1", [.token]⟩, ⟨.mount "/api/v1", [.users]⟩,
    ⟨.route "GET" "/", [.loginPage]⟩,
    ⟨.route "GET" "/client", [.authenticate "oidc" "/", .clientPage]⟩,
    ⟨.route "GET" "/config", [.authenticate "oidc" "/", .sendConfig]⟩,
    ⟨.route "GET" "/logout", [.logout]⟩,
    ⟨.mount "*", [.notFound]⟩ ]

/-! ## Concrete instances -/

/-- The configuration loaded from `sampleEnv`. -/
def sampleConfig : Config := loadConfig sampleEnv

/-- A request with a method and a URL, no headers, no entity, no session principal. -/
def request (method url : String) : Request := ⟨method, url, [], "", none, none⟩

/-- A request for an unknown path that carries the session of `alice`. -/
def unknownPath : Request := { request "GET" "/does-not-exist" with user := some "alice" }

/-- A request with a JSON content type whose entity is not JSON. -/
def malformedJson : Request :=
  ⟨"POST", "/does-not-exist", [("content-type", "application/json")], "\x7b", none, none⟩

/-- The part of a URL before the query string. -/
def pathOf (url : String) : String := String.mk (url.data.takeWhile (fun ch => ch != '?'))

/-- The query string of a URL, with its question mark; empty when there is none. -/
def queryOf (url : String) : String := String.mk (url.data.dropWhile (fun ch => ch != '?'))

/-- A GET for `/logout` that carries the session of `alice`. -/
def logoutRequest : Request := { request "GET" "/logout" with user := some "alice" }

/-- A GET for `/logout` with a JSON content type whose entity is not JSON. -/
def malformedLogout : Request :=
  ⟨"GET", "/logout", [("content-type", "application/json")], "\x7b", none, none⟩

/-- An instance of the external code: one static file exists; the JSON body
parser refuses a malformed entity with status 400 and otherwise sets `req.body`;
the strategy object carries the name `openidconnect` and follows the
authorization-code flow (a request without an authorization response is sent to
the authorization endpoint, a request with a `code` is accepted, anything else
fails); the other middleware and the route modules call `next()`. -/
def sampleDeps : Deps where
  cors := .next
  compression := .next
  static := fun req =>
    if req.method == "GET" && req.originalUrl == "/css/style.css" then
      .ended ⟨200, none, .file (frontendDir ++ ["css/style.css"])⟩
    else .next req
  urlencoded := .next
  json := fun req =>
    if req.headers.lookup "content-type" == some "application/json" then
      if req.payload == "\x7b" then .ended ⟨400, none, .other "Bad Request"⟩
      else .next { req with body := some req.payload }
    else .next req
  session := .next
  passportInitialize := .next
  passportSession := .next
  api := .next
  room := .next
  sms := .next
  token := .next
  users := .next
  strategyName := "openidconnect"
  strategy := fun req =>
    if queryOf req.originalUrl == "" then
      .redirect "https://sso.example/realms/r/protocol/openid-connect/auth"
    else if "?code=".data.isPrefixOf (queryOf req.originalUrl).data then .success "alice"
    else .fail
  mountMatches := fun path req => path.data.isPrefixOf (pathOf req.originalUrl).data
  routeMatches := fun method path req => req.method == method && pathOf req.originalUrl == path

/-! ## Theorems -/

theorem jsNot_eq_true_iff (x : Option String) :
    jsNot x = true ↔ x = none ∨ x = some "" := by
  cases x <;> simp [jsNot]

theorem invalidConfig_loadConfig_iff (env : Env) :
    invalidConfig (loadConfig env) = true ↔
      ∃ v ∈ mandatoryVars, env v = none ∨ env v = some "" := by
  simp only [invalidConfig, loadConfig, mandatoryVars, Bool.or_eq_true, jsNot_eq_true_iff,
    List.mem_cons, List.mem_singleton, exists_eq_or_imp, exists_eq_left, List.not_mem_nil,
    false_and, exists_false, or_false, or_assoc]

theorem validConfig_of_all_set (env : Env)
    (hvalid : ∀ v ∈ mandatoryVars, env v ≠ none ∧ env v ≠ some "") :
    invalidConfig (loadConfig env) = false := by
  cases h : invalidConfig (loadConfig env) with
  | false => rfl
  | true =>
    obtain ⟨v, hv, hmiss⟩ := (invalidConfig_loadConfig_iff env).mp h
    rcases hmiss with hnone | hempty
    · exact absurd hnone (hvalid v hv).1
    · exact absurd hempty (hvalid v hv).2

theorem mem_of_mem_runUntilExit (e : Effect) :
    ∀ l : List Effect, e ∈ runUntilExit l → e ∈ l := by
  intro l
  induction l with
  | nil => intro h; simp [runUntilExit] at h
  | cons a rest ih =>
    intro h
    cases a <;> simp [runUntilExit] at h ⊢ <;> first | exact h | (rcases h with h | h <;> simp_all)

theorem startup_of_invalid (ngrokEnabled : Bool) (env : Env) (db : Settled)
    (h : invalidConfig (loadConfig env) = true) :
    startup ngrokEnabled env db =
      [.dotenvConfig, .sentryStart, .logError "Invalid or missing .env file" none, .exit 1] := by
  simp [startup, h, runUntilExit]

theorem startup_of_valid (ngrokEnabled : Bool) (env : Env) (db : Settled)
    (h : invalidConfig (loadConfig env) = false) :
    startup ngrokEnabled env db =
      [ .dotenvConfig, .sentryStart,
        .mongooseSet "strictQuery" true,
        .mongooseConnect (loadConfig env).MONGO_URL (loadConfig env).MONGO_DATABASE,
        .connectionOn "connected", .connectionOn "error", .connectionOn "disconnected",
        .processOn "SIGINT" ] ++
      thenCatch db (onConnected ngrokEnabled (loadConfig env))
        (fun err => [.logError ("Mongoose init connection error: " ++ err) none]) := by
  cases db <;> cases ngrokEnabled <;>
    simp [startup, h, runUntilExit, thenCatch, onConnected, onListening]

/-- C1: the mandatory parameter check ends the startup with the error entry
followed by `process.exit(1)`, before any connection attempt or `listen`,
exactly when one of the thirteen mandatory variables is absent or empty. -/
theorem mandatory_check_exits_iff (ngrokEnabled : Bool) (env : Env) (db : Settled) :
    ((∃ v ∈ mandatoryVars, env v = none ∨ env v = some "") ↔
      startup ngrokEnabled env db =
        [.dotenvConfig, .sentryStart,
         .logError "Invalid or missing .env file" none, .exit 1]) ∧
    ((∃ v ∈ mandatoryVars, env v = none ∨ env v = some "") ↔
      Effect.exit 1 ∈ startup ngrokEnabled env db) := by
  rw [← invalidConfig_loadConfig_iff]
  cases h : invalidConfig (loadConfig env) with
  | true =>
    rw [startup_of_invalid ngrokEnabled env db h]
    simp
  | false =>
    rw [startup_of_valid ngrokEnabled env db h]
    cases db <;> cases ngrokEnabled <;> simp [thenCatch, onConnected, onListening]

/-- C2, as stated, fails: with a complete environment whose `SERVER_HOST` is
`127.0.0.1` and a successful connection, `listen` is called with port `9000`
and host `null`, and no `listen` call carries `SERVER_HOST`. -/
theorem listen_host_is_not_server_host :
    (∀ v ∈ mandatoryVars, sampleEnv v ≠ none ∧ sampleEnv v ≠ some "") ∧
    sampleEnv "SERVER_HOST" = some "127.0.0.1" ∧
    Effect.listen (some "9000") none ∈ startup false sampleEnv .fulfilled ∧
    ∀ port, Effect.listen port (sampleEnv "SERVER_HOST") ∉ startup false sampleEnv .fulfilled := by
  have hv : invalidConfig (loadConfig sampleEnv) = false := by decide
  rw [startup_of_valid false sampleEnv .fulfilled hv]
  refine ⟨by decide, by decide, by decide, ?_⟩
  intro port
  simp only [thenCatch, onConnected, onListening, List.mem_append, List.mem_cons,
    List.mem_singleton, List.not_mem_nil, reduceCtorEq, false_or, or_false, Effect.listen.injEq,
    if_false, Bool.false_eq_true, not_and, not_false_eq_true, not_or, true_and, and_true]
  intro _
  decide

/-- C2, amended: with every mandatory variable set and a successful connection,
`listen` is called, every `listen` call has `SERVER_PORT` as its port and `null`
as its host. -/
theorem listen_receives_port_and_null_host (ngrokEnabled : Bool) (env : Env)
    (hvalid : ∀ v ∈ mandatoryVars, env v ≠ none ∧ env v ≠ some "") :
    Effect.listen (env "SERVER_PORT") none ∈ startup ngrokEnabled env .fulfilled ∧
    ∀ port host, Effect.listen port host ∈ startup ngrokEnabled env .fulfilled →
      port = env "SERVER_PORT" ∧ host = none := by
  rw [startup_of_valid ngrokEnabled env .fulfilled (validConfig_of_all_set env hvalid)]
  cases ngrokEnabled <;> simp [thenCatch, onConnected, onListening, loadConfig]

/-- The amended C2 at `sampleEnv`, with the tunnel helper enabled. -/
theorem listen_receives_port_and_null_host_witness :
    (∀ v ∈ mandatoryVars, sampleEnv v ≠ none ∧ sampleEnv v ≠ some "") ∧
    Effect.listen (sampleEnv "SERVER_PORT") none ∈ startup true sampleEnv .fulfilled ∧
    ∀ port host, Effect.listen port host ∈ startup true sampleEnv .fulfilled →
      port = sampleEnv "SERVER_PORT" ∧ host = none :=
  ⟨by decide, listen_receives_port_and_null_host true sampleEnv (by decide)⟩

/-- C3: with a valid configuration and a rejected connection attempt the
startup consists of the synchronous statements followed by the error entry of
the `catch`; `express()` is not called, `listen` is not called and
`process.exit` is not called. -/
theorem rejected_connection_skips_server (ngrokEnabled : Bool) (env : Env) (reason : String)
    (hvalid : ∀ v ∈ mandatoryVars, env v ≠ none ∧ env v ≠ some "") :
    startup ngrokEnabled env (.rejected reason) =
      [ .dotenvConfig, .sentryStart,
        .mongooseSet "strictQuery" true,
        .mongooseConnect (env "MONGO_URL") (env "MONGO_DATABASE"),
        .connectionOn "connected", .connectionOn "error", .connectionOn "disconnected",
        .processOn "SIGINT",
        .logError ("Mongoose init connection error: " ++ reason) none ] ∧
    Effect.express ∉ startup ngrokEnabled env (.rejected reason) ∧
    (∀ port host, Effect.listen port host ∉ startup ngrokEnabled env (.rejected reason)) ∧
    (∀ code, Effect.exit code ∉ startup ngrokEnabled env (.rejected reason)) := by
  rw [startup_of_valid ngrokEnabled env _ (validConfig_of_all_set env hvalid)]
  simp [thenCatch, loadConfig]

/-- C3 at `sampleEnv` with a connection attempt rejected for `timeout`. -/
theorem rejected_connection_skips_server_witness :
    (∀ v ∈ mandatoryVars, sampleEnv v ≠ none ∧ sampleEnv v ≠ some "") ∧
    startup false sampleEnv (.rejected "timeout") =
      [ .dotenvConfig, .sentryStart,
        .mongooseSet "strictQuery" true,
        .mongooseConnect (sampleEnv "MONGO_URL") (sampleEnv "MONGO_DATABASE"),
        .connectionOn "connected", .connectionOn "error", .connectionOn "disconnected",
        .processOn "SIGINT",
        .logError ("Mongoose init connection error: " ++ "timeout") none ] ∧
    Effect.express ∉ startup false sampleEnv (.rejected "timeout") ∧
    (∀ port host, Effect.listen port host ∉ startup false sampleEnv (.rejected "timeout")) ∧
    (∀ code, Effect.exit code ∉ startup false sampleEnv (.rejected "timeout")) :=
  ⟨by decide, rejected_connection_skips_server false sampleEnv "timeout" (by decide)⟩

/-- C6: each of the passport callbacks calls `done` with a null error and its
argument unchanged, so serialising a principal and deserialising the result
gives the principal back with no error. -/
theorem serialize_deserialize_identity {α β : Type} (user : α)
    (done : Option String → α → β) :
    serializeUser user done = done none user ∧
    deserializeUser user done = done none user ∧
    verify "issuer" "sub" user "accessToken" "refreshToken" done = done none user ∧
    serializeUser user (fun error stored =>
      deserializeUser stored (fun error' obj => (error, error', obj))) = (none, none, user) :=
  ⟨rfl, rfl, rfl, rfl⟩

/-- C10: the `SIGINT` listener first asks for the connection to be closed;
while that attempt is unsettled nothing else happens, once it is fulfilled the
debug entry is written and the process exits with code 0, once it is rejected
the error entry is written and the process exits with code 0.  Hence every
exit has code 0 and follows a settled close attempt. -/
theorem sigint_exits_zero_after_close (close : Settled) :
    onSigint .pending = [.connectionClose] ∧
    onSigint .fulfilled =
      [ .connectionClose,
        .logDebug "Mongoose connection disconnected through app termination",
        .exit 0 ] ∧
    (∀ error, onSigint (.rejected error) =
      [ .connectionClose,
        .logError "Error closing MongoDB connection:" (some error),
        .exit 0 ]) ∧
    (∀ code, Effect.exit code ∈ onSigint close → code = 0 ∧ close ≠ .pending) ∧
    (close ≠ .pending →
      (onSigint close).head? = some .connectionClose ∧
      (onSigint close).getLast? = some (.exit 0)) := by
  refine ⟨by simp [onSigint, thenCatch, runUntilExit],
    by simp [onSigint, thenCatch, runUntilExit],
    by intro error; simp [onSigint, thenCatch, runUntilExit], ?_, ?_⟩
  · intro code
    cases close <;> simp [onSigint, thenCatch, runUntilExit]
  · intro h
    cases close <;> simp_all [onSigint, thenCatch, runUntilExit]

/-! ### The request path -/

theorem chain_append (a b : List Step) (req : Request) :
    chain (a ++ b) req =
      match chain a req with
      | (events, .next req') => (events ++ (chain b req').1, (chain b req').2)
      | (events, .ended res) => (events, .ended res) := by
  induction a generalizing req with
  | nil => simp [chain]
  | cons s rest ih =>
    simp only [List.cons_append, chain]
    rcases hs : s req with ⟨events, o⟩
    cases o with
    | ended res => simp
    | next req' =>
      have h := ih req'
      rcases hr : chain rest req' with ⟨events', o'⟩
      rw [hr] at h
      cases o' <;> simp [h, hr]

theorem runLayers_append (D : Deps) (c : Config) (a b : List Layer) (req : Request) :
    runLayers D c (a ++ b) req =
      match runLayers D c a req with
      | (events, .next req') => (events ++ (runLayers D c b req').1, (runLayers D c b req').2)
      | (events, .ended res) => (events, .ended res) := by
  simp only [runLayers, List.map_append, chain_append]

theorem app_eq (c : Config) : app c = specOrder := rfl

/-- C8: on a successful connection (all mandatory variables set) the layers
are registered in the order the specification lists; the catch-all is the last
layer and the request logger comes before every mounted router and every route. -/
theorem registration_order (ngrokEnabled : Bool) (env : Env)
    (hvalid : ∀ v ∈ mandatoryVars, env v ≠ none ∧ env v ≠ some "") :
    stack (startup ngrokEnabled env .fulfilled) = specOrder ∧
    (stack (startup ngrokEnabled env .fulfilled)).getLast? = some ⟨.mount "*", [.notFound]⟩ ∧
    ∀ l ∈ stack (startup ngrokEnabled env .fulfilled), l.matcher ≠ .all →
      (stack (startup ngrokEnabled env .fulfilled)).indexOf ⟨.all, [.requestLogger]⟩ <
        (stack (startup ngrokEnabled env .fulfilled)).indexOf l := by
  have h : stack (startup ngrokEnabled env .fulfilled) = specOrder := by
    rw [startup_of_valid ngrokEnabled env .fulfilled (validConfig_of_all_set env hvalid)]
    cases ngrokEnabled <;> rfl
  rw [h]
  exact ⟨rfl, by decide, by decide⟩

/-- C8 at `sampleEnv`. -/
theorem registration_order_witness :
    (∀ v ∈ mandatoryVars, sampleEnv v ≠ none ∧ sampleEnv v ≠ some "") ∧
    stack (startup false sampleEnv .fulfilled) = specOrder ∧
    (stack (startup false sampleEnv .fulfilled)).getLast? = some ⟨.mount "*", [.notFound]⟩ ∧
    ∀ l ∈ stack (startup false sampleEnv .fulfilled), l.matcher ≠ .all →
      (stack (startup false sampleEnv .fulfilled)).indexOf ⟨.all, [.requestLogger]⟩ <
        (stack (startup false sampleEnv .fulfilled)).indexOf l :=
  ⟨by decide, registration_order false sampleEnv (by decide)⟩

/-- C4, as stated, fails: a POST to `/does-not-exist` with a JSON content type
and a malformed entity is not served by the static middleware, lies outside
`/api/v1` and matches none of the four GET routes, yet the JSON body parser,
registered before the routes, ends it with status 400; the catch-all is not
reached. -/
theorem malformed_json_is_not_answered_404 :
    sampleDeps.static malformedJson = .next malformedJson ∧
    sampleDeps.mountMatches apiPath malformedJson = false ∧
    (∀ path ∈ ["/", "/client", "/config", "/logout"],
      sampleDeps.routeMatches "GET" path malformedJson = false) ∧
    handle sampleDeps sampleConfig malformedJson =
      [.respond ⟨400, none, .other "Bad Request"⟩] := by
  decide

/-- C4, amended: a request that every layer registered before the catch-all
lets through (the layer does not apply, or its handlers call `next()`) is
answered by the catch-all with status 404 and the object with the single field
`message` = `Page not found`; this holds for every request, with or without a
session principal. -/
theorem fallback_answers_404 (D : Deps) (c : Config) (req req' : Request)
    (events : List Event)
    (hpass : runLayers D c (app c).dropLast req = (events, .next req')) :
    handle D c req =
      events ++ [.respond ⟨404, none, .object [("message", "Page not found")]⟩] := by
  have happ : app c = (app c).dropLast ++ [⟨.mount "*", [.notFound]⟩] := by
    rw [app_eq]; rfl
  unfold handle
  rw [happ, runLayers_append, hpass]
  simp [runLayers, runLayer, Layer.applies, chain, handler, Response.json]

/-- The amended C4 at a GET for `/does-not-exist` carrying a session principal. -/
theorem fallback_answers_404_witness :
    runLayers sampleDeps sampleConfig (app sampleConfig).dropLast unknownPath =
      ([.logDebug "New request:" (.request [] none "GET" "/does-not-exist")],
       .next unknownPath) ∧
    handle sampleDeps sampleConfig unknownPath =
      [.logDebug "New request:" (.request [] none "GET" "/does-not-exist")] ++
        [.respond ⟨404, none, .object [("message", "Page not found")]⟩] :=
  ⟨by decide,
   fallback_answers_404 sampleDeps sampleConfig unknownPath unknownPath
     [.logDebug "New request:" (.request [] none "GET" "/does-not-exist")] (by decide)⟩

theorem chain_events_forall (P : Event → Prop) (steps : List Step)
    (hsteps : ∀ s ∈ steps, ∀ r, ∀ e ∈ (s r).1, P e) (req : Request) :
    ∀ e ∈ (chain steps req).1, P e := by
  induction steps generalizing req with
  | nil => intro e he; simp [chain] at he
  | cons s rest ih =>
    intro e he
    have hs := hsteps s (List.mem_cons_self _ _) req
    have hrest : ∀ t ∈ rest, ∀ r, ∀ e ∈ (t r).1, P e :=
      fun t ht => hsteps t (List.mem_cons_of_mem _ ht)
    simp only [chain] at he
    rcases hsr : s req with ⟨events, o⟩
    rw [hsr] at he hs
    cases o with
    | ended res => exact hs e he
    | next req' =>
      simp only [List.mem_append] at he
      rcases he with he | he
      · exact hs e he
      · exact ih hrest req' e he

theorem runLayers_events_forall (D : Deps) (c : Config) (P : Event → Prop)
    (H : HandlerName → Prop)
    (hH : ∀ h, H h → ∀ r, ∀ e ∈ (handler D c h r).1, P e)
    (layers : List Layer) (hlayers : ∀ l ∈ layers, ∀ h ∈ l.handlers, H h) (req : Request) :
    ∀ e ∈ (runLayers D c layers req).1, P e := by
  apply chain_events_forall
  intro s hs r e he
  obtain ⟨l, hl, rfl⟩ := List.mem_map.mp hs
  unfold runLayer at he
  split at he
  · refine chain_events_forall P _ ?_ r e he
    intro t ht r' e' he'
    obtain ⟨h, hh, rfl⟩ := List.mem_map.mp ht
    exact hH h (hlayers l hl h hh) r' e' he'
  · simp at he

theorem early_layers_silent (D : Deps) (c : Config) (req : Request) :
    (runLayers D c ((app c).take 8) req).1 = [] := by
  apply List.eq_nil_iff_forall_not_mem.mpr
  intro e he
  refine runLayers_events_forall D c (fun _ => False)
    (fun h => h ∈ [HandlerName.cors, .compression, .static, .urlencoded, .json, .session,
      .passportInitialize, .passportSession]) ?_ ((app c).take 8) ?_ req e he
  · intro h hh r e he
    simp only [List.mem_cons, List.mem_singleton, List.not_mem_nil, or_false] at hh
    rcases hh with rfl | rfl | rfl | rfl | rfl | rfl | rfl | rfl <;> simp [handler] at he
  · rw [app_eq]; decide

theorem late_layers_no_request_log (D : Deps) (c : Config) (req : Request) :
    ∀ e ∈ (runLayers D c ((app c).drop 9) req).1, isRequestLog e = false := by
  refine runLayers_events_forall D c (fun e => isRequestLog e = false)
    (fun h => h ≠ .requestLogger) ?_ ((app c).drop 9) ?_ req
  · intro h hh r e he
    cases h <;> simp [handler] at he hh ⊢ <;> subst he <;> rfl
  · rw [app_eq]; decide

/-- C7, as stated, fails: a GET for a file that the static middleware serves is
answered by that middleware, which is registered before the request logger, and
no request-log entry is written for it. -/
theorem static_request_is_not_logged :
    handle sampleDeps sampleConfig (request "GET" "/css/style.css") =
      [.respond ⟨200, none, .file (frontendDir ++ ["css/style.css"])⟩] ∧
    requestLogs (handle sampleDeps sampleConfig (request "GET" "/css/style.css")) = 0 := by
  decide

/-- C7, amended: the eight layers registered before the request logger write
nothing.  A request that all eight pass on causes exactly one request-log entry,
holding the headers, body, method and URL of the request as those layers left
it, and the entry comes before anything a router, a route or the catch-all
does.  A request that one of the eight ends causes no entry at all. -/
theorem request_logged_once_after_early_layers (D : Deps) (c : Config) (req : Request) :
    (∀ req', (runLayers D c ((app c).take 8) req).2 = .next req' →
      ∃ rest, handle D c req =
          .logDebug "New request:"
            (.request req'.headers req'.body req'.method req'.originalUrl) :: rest ∧
        requestLogs rest = 0 ∧ requestLogs (handle D c req) = 1) ∧
    (∀ res, (runLayers D c ((app c).take 8) req).2 = .ended res →
      handle D c req = [.respond res] ∧ requestLogs (handle D c req) = 0) := by
  have happ : app c = (app c).take 8 ++ (⟨.all, [.requestLogger]⟩ :: (app c).drop 9) := by
    rw [app_eq]; rfl
  have hsilent := early_layers_silent D c req
  constructor
  · intro req' hnext
    have hpre : runLayers D c ((app c).take 8) req = ([], .next req') :=
      Prod.ext hsilent hnext
    have hlog : ∀ tail : List Layer, runLayers D c (⟨.all, [.requestLogger]⟩ :: tail) req' =
        (.logDebug "New request:"
            (.request req'.headers req'.body req'.method req'.originalUrl) ::
          (runLayers D c tail req').1, (runLayers D c tail req').2) := by
      intro tail
      simp [runLayers, runLayer, Layer.applies, chain, handler]
    have hlate := late_layers_no_request_log D c req'
    have hcount : requestLogs (runLayers D c ((app c).drop 9) req').1 = 0 := by
      unfold requestLogs
      rw [List.countP_eq_zero]
      intro e he
      simp [hlate e he]
    rcases hr : runLayers D c ((app c).drop 9) req' with ⟨events, o⟩
    rw [hr] at hcount
    have hhandle : handle D c req =
        .logDebug "New request:"
            (.request req'.headers req'.body req'.method req'.originalUrl) ::
          (events ++ [match o with
            | .ended res => Event.respond res
            | .next _ => Event.finalHandler]) := by
      unfold handle
      rw [happ, runLayers_append, hpre]
      simp only [List.nil_append, hlog, hr]
      cases o <;> simp
    have hrest : requestLogs (events ++ [match o with
            | .ended res => Event.respond res
            | .next _ => Event.finalHandler]) = 0 := by
      simp only [requestLogs, List.countP_append] at hcount ⊢
      rw [hcount]
      cases o <;> simp [List.countP_cons, isRequestLog]
    refine ⟨_, hhandle, hrest, ?_⟩
    rw [hhandle]
    simp only [requestLogs, List.countP_cons] at hrest ⊢
    rw [hrest]
    simp [isRequestLog]
  · intro res hended
    have hpre : runLayers D c ((app c).take 8) req = ([], .ended res) :=
      Prod.ext hsilent hended
    have hhandle : handle D c req = [.respond res] := by
      unfold handle
      rw [happ, runLayers_append, hpre]
      simp
    refine ⟨hhandle, ?_⟩
    rw [hhandle]
    simp [requestLogs, List.countP_cons, isRequestLog]

/-- The amended C7 at a request the early layers pass on and at one the JSON
body parser ends. -/
theorem request_logged_once_after_early_layers_witness :
    (runLayers sampleDeps sampleConfig ((app sampleConfig).take 8) unknownPath).2 =
      .next unknownPath ∧
    (∃ rest, handle sampleDeps sampleConfig unknownPath =
        .logDebug "New request:" (.request [] none "GET" "/does-not-exist") :: rest ∧
      requestLogs rest = 0 ∧ requestLogs (handle sampleDeps sampleConfig unknownPath) = 1) ∧
    (runLayers sampleDeps sampleConfig ((app sampleConfig).take 8) malformedJson).2 =
      .ended ⟨400, none, .other "Bad Request"⟩ ∧
    handle sampleDeps sampleConfig malformedJson = [.respond ⟨400, none, .other "Bad Request"⟩] ∧
    requestLogs (handle sampleDeps sampleConfig malformedJson) = 0 :=
  ⟨by decide,
   (request_logged_once_after_early_layers sampleDeps sampleConfig unknownPath).1
     unknownPath (by decide),
   by decide,
   (request_logged_once_after_early_layers sampleDeps sampleConfig malformedJson).2
     ⟨400, none, .other "Bad Request"⟩ (by decide)⟩

theorem registeredStrategies_eq (D : Deps) (c : Config) :
    registeredStrategies D.strategyName (onConnected false c) = [D.strategyName] := rfl

theorem authenticate_of_unregistered (D : Deps) (c : Config) (strategy failureRedirect : String)
    (req : Request) (hname : D.strategyName ≠ strategy) :
    authenticate D c strategy failureRedirect req = .ended (unknownStrategy strategy) := by
  unfold authenticate
  rw [registeredStrategies_eq]
  have h : ([D.strategyName].contains strategy) = false := by
    simp [Ne.symm hname]
  rw [h]
  rfl

/-- C5 on the code: the only strategy is registered at line 92 without a name,
hence under the name the strategy object carries, while both protected routes
authenticate with the name `oidc`.  Whenever that name differs from `oidc`, a
request that reaches GET `/client` or GET `/config` is answered, whatever its
session principal, with the error response for an unknown strategy: there is no
redirect to `/`, and the route handler does not run. -/
theorem protected_routes_answer_unknown_strategy (D : Deps) (c : Config)
    (req req' : Request) (events : List Event) (hname : D.strategyName ≠ "oidc") :
    (runLayers D c ((app c).take 15) req = (events, .next req') →
      D.routeMatches "GET" "/client" req' = true →
      handle D c req = events ++ [.respond (unknownStrategy "oidc")]) ∧
    (runLayers D c ((app c).take 16) req = (events, .next req') →
      D.routeMatches "GET" "/config" req' = true →
      handle D c req = events ++ [.respond (unknownStrategy "oidc")]) := by
  have hauth := authenticate_of_unregistered D c "oidc" "/" req' hname
  constructor
  · intro hpass hmatch
    have happ : app c = (app c).take 15 ++ (app c).drop 15 := (List.take_append_drop _ _).symm
    unfold handle
    rw [happ, runLayers_append, hpass]
    rw [app_eq]
    simp [specOrder, runLayers, runLayer, Layer.applies, chain, handler, hmatch, hauth]
  · intro hpass hmatch
    have happ : app c = (app c).take 16 ++ (app c).drop 16 := (List.take_append_drop _ _).symm
    unfold handle
    rw [happ, runLayers_append, hpass]
    rw [app_eq]
    simp [specOrder, runLayers, runLayer, Layer.applies, chain, handler, hmatch, hauth]

/-- C5 at the failing inputs: GET `/client` and GET `/config` without a session
principal, the strategy object carrying the name `openidconnect`. -/
theorem protected_routes_answer_unknown_strategy_witness :
    sampleDeps.strategyName ≠ "oidc" ∧
    (request "GET" "/client").user = none ∧
    handle sampleDeps sampleConfig (request "GET" "/client") =
      [.logDebug "New request:" (.request [] none "GET" "/client")] ++
        [.respond (unknownStrategy "oidc")] ∧
    (request "GET" "/config").user = none ∧
    handle sampleDeps sampleConfig (request "GET" "/config") =
      [.logDebug "New request:" (.request [] none "GET" "/config")] ++
        [.respond (unknownStrategy "oidc")] :=
  ⟨by decide, rfl,
   (protected_routes_answer_unknown_strategy sampleDeps sampleConfig
     (request "GET" "/client") (request "GET" "/client")
     [.logDebug "New request:" (.request [] none "GET" "/client")] (by decide)).1
     (by decide) (by decide),
   rfl,
   (protected_routes_answer_unknown_strategy sampleDeps sampleConfig
     (request "GET" "/config") (request "GET" "/config")
     [.logDebug "New request:" (.request [] none "GET" "/config")] (by decide)).2
     (by decide) (by decide)⟩

/-- C9, as stated, fails: a GET for `/logout` with a JSON content type and a
malformed entity matches the route, yet the JSON body parser, registered before
the routes, ends it with status 400; `req.logout` is not called and no redirect
is issued. -/
theorem malformed_logout_is_not_redirected :
    sampleDeps.routeMatches "GET" "/logout" malformedLogout = true ∧
    handle sampleDeps sampleConfig malformedLogout =
      [.respond ⟨400, none, .other "Bad Request"⟩] ∧
    Event.reqLogout ∉ handle sampleDeps sampleConfig malformedLogout := by
  decide

/-- C9, amended: a request that the seventeen layers registered before the
route GET `/logout` let through and that matches the route is served, with or
without a session principal, by the logout handler, which is the only handler
of the route: after what the earlier layers logged come the call of
`req.logout` and then the redirect to the configured issuer followed by
`/protocol/openid-connect/logout`, and nothing else.  The issuer is an initial
segment of the target. -/
theorem logout_ends_session_then_redirects (D : Deps) (c : Config) (req req' : Request)
    (events : List Event) (issuer : String)
    (hissuer : c.KEYCLOAK_ISSUER = some issuer)
    (hpass : runLayers D c ((app c).take 17) req = (events, .next req'))
    (hmatch : D.routeMatches "GET" "/logout" req' = true) :
    handle D c req =
      events ++
        [ .reqLogout,
          .respond ⟨302, some (issuer ++ "/protocol/openid-connect/logout"), .empty⟩ ] ∧
    issuer.data <+: (issuer ++ "/protocol/openid-connect/logout").data := by
  refine ⟨?_, by simp [String.data_append]⟩
  have happ : app c = (app c).take 17 ++ (app c).drop 17 := (List.take_append_drop _ _).symm
  unfold handle
  rw [happ, runLayers_append, hpass]
  rw [app_eq]
  simp [specOrder, runLayers, runLayer, Layer.applies, chain, handler, hmatch, hissuer,
    jsString, Response.redirect]

/-- The amended C9 at the sample configuration, for a GET for `/logout` carrying
a session principal. -/
theorem logout_ends_session_then_redirects_witness :
    sampleConfig.KEYCLOAK_ISSUER = some "https://sso.example/realms/r" ∧
    runLayers sampleDeps sampleConfig ((app sampleConfig).take 17) logoutRequest =
      ([.logDebug "New request:" (.request [] none "GET" "/logout")], .next logoutRequest) ∧
    sampleDeps.routeMatches "GET" "/logout" logoutRequest = true ∧
    handle sampleDeps sampleConfig logoutRequest =
      [.logDebug "New request:" (.request [] none "GET" "/logout")] ++
        [ .reqLogout,
          .respond ⟨302,
            some ("https://sso.example/realms/r" ++ "/protocol/openid-connect/logout"),
            .empty⟩ ] ∧
    "https://sso.example/realms/r".data <+:
      ("https://sso.example/realms/r" ++ "/protocol/openid-connect/logout").data :=
  ⟨by decide, by decide, by decide,
   logout_ends_session_then_redirects sampleDeps sampleConfig logoutRequest logoutRequest
     [.logDebug "New request:" (.request [] none "GET" "/logout")]
     "https://sso.example/realms/r" (by decide) (by decide) (by decide)⟩

end Server
